import Mathlib

/-!
Shallow embedding of the credential validation/refresh core of the
`jwt-auth` repository (Go sources `jwt/credentials.go`, `jwt/jwtToken.go`).

Modelling conventions, stated once here and referenced below:

* A Go `jwtGo.MapClaims` is a mutable `map[string]interface{}`.  We model the
  claim values that the core reads and writes (`csrf : string`,
  `exp : int64`, `id : string`, plus opaque custom claims) by `ClaimVal`,
  and the map by an association list with unique keys (`MapClaims`), with
  `setClaim` giving Go's map-assignment semantics and `lookupClaim` Go's read.

* Go map assignment (`authClaims := *claims`) copies only the map header,
  not the contents: `authClaims`, `refreshClaimsClaims` and `*claims` are
  one shared map.  The tokens built by `newTokenWithClaims` retain a
  reference to that map and its contents are only read later (at signing /
  validation time), after all writes of the building function have run.
  The embedding therefore threads the writes sequentially through one map
  value and gives both tokens the final contents — exactly what a reader
  of the tokens observes in the Go program.

* `time.Now()` during one call of a building function is modelled as a
  single instant `now : Int` (unix seconds); `time.Duration` valid times
  are `Int` seconds, so `time.Now().Add(d).Unix()` is `now + d`.

* `generateNewCsrfString` (a random 32-character string, or a failure of
  the randomness source) is modelled by an `Option String` input: `some s`
  is the generated string, `none` the rare generation failure.

* The jwt library (`github.com/golang-jwt/jwt/v5`) is external to the
  repository.  `ParseWithClaims` returns a token pointer (nil only when
  the input does not even split into three segments) together with an
  error; when a token is produced despite a verification failure (expired,
  bad signature, wrong signing method) the decoded claims are retained in
  it.  We model the pair returned by the library as the input
  `ParseOutcome` of `buildTokenWithClaimsFromString`.  `Token.Valid` is
  true iff signature, structure and expiry checks all passed; a token
  freshly built by `NewWithClaims` has `Valid = false` (Go zero value) and
  no parse error.

* The repository's `jwtError` type and `GetClaimString` helper are code of
  this repository that is not under `src/`; they are modelled from the
  spec where marked below.
-/

/-- A single claim value as the core reads and writes it: a string claim,
an integer (unix-seconds) claim, or a caller-defined custom value opaque
to the core. -/
inductive ClaimVal where
  | str (s : String)
  | int (n : Int)
  | custom (tag : Nat)
  deriving DecidableEq, Repr

/-- The claim map of a token (`jwtGo.MapClaims`), keys unique; association
list with Go map read/write semantics via `lookupClaim` / `setClaim`. -/
abbrev MapClaims := List (String × ClaimVal)

/-- Go map read `m[k]`: the value stored at `k`, if any. -/
def lookupClaim (m : MapClaims) (k : String) : Option ClaimVal :=
  match m with
  | [] => none
  | (k', v') :: rest => if k' = k then some v' else lookupClaim rest k

/-- Go map write `m[k] = v`: replaces the entry at `k`, or appends it. -/
def setClaim (m : MapClaims) (k : String) (v : ClaimVal) : MapClaims :=
  match m with
  | [] => [(k, v)]
  | (k', v') :: rest => if k' = k then (k, v) :: rest else (k', v') :: setClaim rest k v

/-- Modelled from the spec: `GetClaimString` is repository code not under
`src/` (it is called at credentials.go:113, 142 and 148).  Per the spec's
wire claim shape, it reads the named claim as a string, failing when the
claim is absent or not a string. -/
def GetClaimString (m : MapClaims) (k : String) : Except Unit String :=
  match lookupClaim m k with
  | some (ClaimVal.str s) => Except.ok s
  | _ => Except.error ()

/-- Modelled from the spec: the repository's `jwtError` (not under `src/`)
carries a status-code hint (`Type` in Go; `Typ` here since `Type` is a
Lean keyword).  `wrapsTokenExpired` records whether
`errors.Is(err, jwtGo.ErrTokenExpired)` holds for the wrapped error
chain. -/
structure JwtErr where
  Typ : Nat
  Msg : String
  wrapsTokenExpired : Bool
  deriving DecidableEq, Repr

/-- `newJwtError(errors.New(msg), t)`: all call sites in the core wrap a
freshly constructed error, whose chain never matches
`jwtGo.ErrTokenExpired` under `errors.Is`.  Messages are the source
strings (apostrophes elided). -/
def newJwtErrorNew (t : Nat) (msg : String) : JwtErr :=
  { Typ := t, Msg := msg, wrapsTokenExpired := false }

/-- The kind of error retained from a failed library parse. -/
inductive ParseErrKind where
  | expired
  | badSignature
  | wrongMethod
  | malformed
  | other
  deriving DecidableEq, Repr

/-- A `jwtGo.Token` as the core observes it: its claim map, whether the
type assertion `Claims.(*jwtGo.MapClaims)` succeeds (`claimsOk`), and the
library's `Valid` flag (true iff signature, structure and expiry checks
all passed during parsing). -/
structure GoToken where
  Claims : MapClaims
  claimsOk : Bool
  Valid : Bool
  deriving DecidableEq, Repr

/-- The repository's `jwtToken` wrapper: the (never nil, by construction
of both builders) library token, the retained parse error, and the valid
time copied from the options. -/
structure JwtToken where
  Token : GoToken
  ParseErr : Option ParseErrKind
  ValidTime : Int
  deriving DecidableEq, Repr

/-- The pair `(token, err)` returned by the external library call
`jwtGo.ParseWithClaims` inside `buildTokenWithClaimsFromString`:
either no token at all (input not of the shape `a.b.c`; the error is then
always present), or a token — possibly carrying decoded claims and a
verification error such as `expired` or `badSignature`. -/
inductive ParseOutcome where
  | failedNil (err : ParseErrKind)
  | parsed (t : GoToken) (err : Option ParseErrKind)
  deriving DecidableEq, Repr

/-- The parse error component of a library outcome. -/
def parseErrOf : ParseOutcome → Option ParseErrKind
  | ParseOutcome.failedNil e => some e
  | ParseOutcome.parsed _ e => e

/-- jwtToken.go:30-56, `buildTokenWithClaimsFromString`: wraps the library
outcome; when the library returned no token, substitutes a fresh empty
token (`token.Claims = new(jwtGo.MapClaims)`, a pointer, so the claims
assertion succeeds on it) and retains the error. -/
def buildTokenWithClaimsFromString (r : ParseOutcome) (validTime : Int) : JwtToken :=
  match r with
  | ParseOutcome.failedNil e =>
      { Token := { Claims := [], claimsOk := true, Valid := false }
        ParseErr := some e
        ValidTime := validTime }
  | ParseOutcome.parsed t e =>
      { Token := t, ParseErr := e, ValidTime := validTime }

/-- jwtToken.go:58-68, `newTokenWithClaims`: a fresh token over the given
claims map (held by reference; see the file comment), no parse error;
`jwtGo.NewWithClaims` leaves `Valid` at its zero value `false`. -/
def newTokenWithClaims (claims : MapClaims) (validTime : Int) : JwtToken :=
  { Token := { Claims := claims, claimsOk := true, Valid := false }
    ParseErr := none
    ValidTime := validTime }

/-- The per-credential options copied from the `Auth` service
(credentials.go:22-35).  `CheckTokenId` is the RevocationOracle,
`UpdateTokenClaims` the ClaimsUpdater. -/
structure CredentialsOptions where
  AuthTokenValidTime : Int
  RefreshTokenValidTime : Int
  CheckTokenId : String → Bool
  VerifyOnlyServer : Bool
  UpdateTokenClaims : MapClaims → MapClaims

/-- The mutable state of a `credentials` value (credentials.go:13-20):
the presented CSRF secret and the two tokens.  The refresh token is absent
when no refresh token string was provided. -/
structure Credentials where
  CsrfString : String
  AuthToken : JwtToken
  RefreshToken : Option JwtToken
  deriving DecidableEq, Repr

/-- Ambient effects of one refresh/issue attempt: the current unix time
and the result of `generateNewCsrfString` (none = generation failure). -/
structure Env where
  now : Int
  newCsrfString : Option String

/-- credentials.go:43-71, `buildCredentialsFromClaims`: issuance from
caller-supplied base claims.  `authClaims := *claims` and
`refreshClaimsClaims := *claims` copy the map header only, so the four
claim writes hit one shared map referenced by both tokens; both tokens
therefore observe the final contents (see the file comment). -/
def buildCredentialsFromClaims (opts : CredentialsOptions) (claims : MapClaims)
    (newCsrf : Option String) (now : Int) : Except JwtErr Credentials :=
  match newCsrf with
  | none => Except.error (newJwtErrorNew 500 "csrf generation failed")
  | some cs =>
    let m1 := setClaim claims "csrf" (ClaimVal.str cs)
    let m2 := setClaim m1 "exp" (ClaimVal.int (now + opts.AuthTokenValidTime))
    let m3 := setClaim m2 "csrf" (ClaimVal.str cs)
    let m4 := setClaim m3 "exp" (ClaimVal.int (now + opts.RefreshTokenValidTime))
    Except.ok
      { CsrfString := cs
        AuthToken := newTokenWithClaims m4 opts.AuthTokenValidTime
        RefreshToken := some (newTokenWithClaims m4 opts.RefreshTokenValidTime) }

/-- credentials.go:73-99, `buildCredentialsFromStrings`: a credential set
built from the three wire strings; each token string is handed to the
library, whose outcome is a `ParseOutcome` here; an empty refresh token
string means no refresh token. -/
def buildCredentialsFromStrings (opts : CredentialsOptions) (csrfString : String)
    (authOutcome : ParseOutcome) (refreshOutcome : Option ParseOutcome) : Credentials :=
  { CsrfString := csrfString
    AuthToken := buildTokenWithClaimsFromString authOutcome opts.AuthTokenValidTime
    RefreshToken :=
      refreshOutcome.map (fun r => buildTokenWithClaimsFromString r opts.RefreshTokenValidTime) }

/-- credentials.go:101-119, `validateCsrfStringAgainstCredentials`: reads
`csrf` from the auth token's claims only (the refresh-token check is
commented out in the source); claims unreadable gives a 500, an absent or
differing csrf claim a 401. -/
def validateCsrfStringAgainstCredentials (c : Credentials) : Option JwtErr :=
  if c.AuthToken.Token.claimsOk = false then
    some (newJwtErrorNew 500 "cannot read token claims")
  else
    match GetClaimString c.AuthToken.Token.Claims "csrf" with
    | Except.error _ => some (newJwtErrorNew 401 "CSRF token does not match value in auth token")
    | Except.ok s =>
      if c.CsrfString ≠ s then
        some (newJwtErrorNew 401 "CSRF token does not match value in auth token")
      else none

/-- credentials.go:131-196, `updateAuthTokenFromRefreshToken`.  The guard
`c.RefreshToken == nil || c.RefreshToken.Token == nil` reduces to the
first disjunct: both token builders always populate `Token`.  On success
the two new tokens are built over one shared claims map (same header-copy
aliasing as at issuance), so both carry its final contents. -/
def updateAuthTokenFromRefreshToken (opts : CredentialsOptions) (env : Env)
    (c : Credentials) : Option JwtErr × Credentials :=
  match c.RefreshToken with
  | none => (some (newJwtErrorNew 401 "refresh token is invalid. Cannot refresh auth token"), c)
  | some rt =>
    if rt.Token.claimsOk = false then
      (some (newJwtErrorNew 500 "cannot read refresh token claims"), c)
    else
      match GetClaimString rt.Token.Claims "csrf" with
      | Except.error _ =>
        (some (newJwtErrorNew 401 "CSRF token does not match value in refresh token"), c)
      | Except.ok csrfString =>
        if c.CsrfString ≠ csrfString then
          (some (newJwtErrorNew 401 "CSRF token does not match value in refresh token"), c)
        else
          match GetClaimString rt.Token.Claims "id" with
          | Except.error _ => (some (newJwtErrorNew 500 "cannot read claim string"), c)
          | Except.ok id =>
            if opts.CheckTokenId id then
              if rt.Token.Valid then
                match env.newCsrfString with
                | none => (some (newJwtErrorNew 500 "csrf generation failed"), c)
                | some ncs =>
                  let claims := opts.UpdateTokenClaims rt.Token.Claims
                  let m1 := setClaim claims "csrf" (ClaimVal.str ncs)
                  let m2 := setClaim m1 "exp" (ClaimVal.int (env.now + opts.AuthTokenValidTime))
                  let m3 := setClaim m2 "csrf" (ClaimVal.str ncs)
                  let m4 := setClaim m3 "exp" (ClaimVal.int (env.now + opts.RefreshTokenValidTime))
                  (none,
                    { CsrfString := ncs
                      AuthToken := newTokenWithClaims m4 opts.AuthTokenValidTime
                      RefreshToken := some (newTokenWithClaims m4 opts.RefreshTokenValidTime) })
              else
                (some (newJwtErrorNew 401 "refresh token is invalid. Cannot refresh auth token"), c)
            else
              (some (newJwtErrorNew 401
                "refresh token has been revoked. Cannot update auth token"), c)

/-- credentials.go:235, the left disjunct `errors.Is(err, jwtGo.ErrTokenExpired)`
applied to the error returned by the csrf check: `errors.Is` on a nil
error is false, otherwise it asks the wrapped chain. -/
def errorsIsTokenExpired : Option JwtErr → Bool
  | none => false
  | some e => e.wrapsTokenExpired

/-- The `Type` field of a possibly-nil `*jwtError` (0 when nil — the Go
condition guards the read with `err != nil`). -/
def errTypeOf : Option JwtErr → Nat
  | none => 0
  | some e => e.Typ

/-- credentials.go:198-255, `validateAndUpdateCredentials`: the
validate/refresh state machine.  Note that `err` throughout is the result
of the csrf check, never the auth token's retained parse error. -/
def validateAndUpdateCredentials (opts : CredentialsOptions) (env : Env)
    (c : Credentials) : Option JwtErr × Credentials :=
  let err := validateCsrfStringAgainstCredentials c
  if err = none ∧ c.AuthToken.Token.Valid = true then
    (none, c)
  else
    if errorsIsTokenExpired err = true ∨ (err ≠ none ∧ errTypeOf err = 401) then
      if opts.VerifyOnlyServer = false then
        updateAuthTokenFromRefreshToken opts env c
      else
        (some (newJwtErrorNew 401
          "Auth token is expired and server is not authorized to issue new tokens"), c)
    else
      (some (newJwtErrorNew 401
        "Auth token is not valid, and not because it has expired"), c)

theorem lookupClaim_setClaim_self (m : MapClaims) (k : String) (v : ClaimVal) :
    lookupClaim (setClaim m k v) k = some v := by
  induction m with
  | nil => simp [setClaim, lookupClaim]
  | cons hd tl ih =>
    obtain ⟨k', v'⟩ := hd
    by_cases h : k' = k
    · simp [setClaim, lookupClaim, h]
    · simp [setClaim, lookupClaim, h, ih]

theorem lookupClaim_setClaim_ne (m : MapClaims) (k k' : String) (v : ClaimVal)
    (h : ¬ k' = k) : lookupClaim (setClaim m k v) k' = lookupClaim m k' := by
  have h2 : ¬ k = k' := fun hk => h hk.symm
  induction m with
  | nil => simp [setClaim, lookupClaim, h2]
  | cons hd tl ih =>
    obtain ⟨k0, v0⟩ := hd
    by_cases h0 : k0 = k
    · subst h0
      simp [setClaim, lookupClaim, h2]
    · simp [setClaim, lookupClaim, h0, ih]

/-- The csrf claim of a claims map after the four stamping writes of an
issue/refresh (csrf, auth exp, csrf, refresh exp) is the stamped value. -/
theorem lookupClaim_stamped_csrf (m : MapClaims) (cs : String) (a b : Int) :
    lookupClaim (setClaim (setClaim (setClaim (setClaim m "csrf" (ClaimVal.str cs))
        "exp" (ClaimVal.int a)) "csrf" (ClaimVal.str cs)) "exp" (ClaimVal.int b))
      "csrf" = some (ClaimVal.str cs) := by
  rw [lookupClaim_setClaim_ne _ "exp" "csrf" _ (by decide), lookupClaim_setClaim_self]

/-- C5: when the presented csrfSecret equals the auth token csrf claim
(readable claims) and the auth token is valid, `validateAndRefresh`
returns AuthValid (`none`) and leaves the credential set unchanged.
Because the statement holds for EVERY options record (hence every
RevocationOracle `CheckTokenId` and every ClaimsUpdater
`UpdateTokenClaims`), every environment and every refresh-token field,
the outcome does not depend on them: the fast path never invokes the
oracle or the updater and never reads the refresh token. -/
theorem fastPath_authValid_no_mutation (opts : CredentialsOptions) (env : Env)
    (c : Credentials)
    (hok : c.AuthToken.Token.claimsOk = true)
    (hcsrf : GetClaimString c.AuthToken.Token.Claims "csrf" = Except.ok c.CsrfString)
    (hvalid : c.AuthToken.Token.Valid = true) :
    validateAndUpdateCredentials opts env c = (none, c) := by
  simp [validateAndUpdateCredentials, validateCsrfStringAgainstCredentials, hok, hcsrf, hvalid]

/-- A concrete unexpired, csrf-matching credential for the C5 witness. -/
def fastPathCred : Credentials :=
  { CsrfString := "csrf-0"
    AuthToken :=
      { Token :=
          { Claims := [("csrf", ClaimVal.str "csrf-0"), ("exp", ClaimVal.int 1900),
                       ("id", ClaimVal.str "tid"), ("role", ClaimVal.str "user")]
            claimsOk := true
            Valid := true }
        ParseErr := none
        ValidTime := 900 }
    RefreshToken := none }

/-- C5 witness: the fast-path theorem applied at a concrete credential. -/
theorem fastPath_authValid_no_mutation_witness :
    validateAndUpdateCredentials
      { AuthTokenValidTime := 900, RefreshTokenValidTime := 259200
        CheckTokenId := fun _ => false, VerifyOnlyServer := false
        UpdateTokenClaims := fun m => m }
      { now := 1000, newCsrfString := some "n1" } fastPathCred = (none, fastPathCred) :=
  fastPath_authValid_no_mutation _ _ _ rfl rfl rfl

/-- C9: on a verify-only service, an expired auth token (csrf matching,
claims readable, retained parse error = expired) with a present,
otherwise-valid refresh token yields Unauthorized (a 401) and an
unchanged credential set.  The statement holds for every options record
and environment, so the outcome depends neither on the RevocationOracle
`CheckTokenId` nor on the ClaimsUpdater `UpdateTokenClaims`: no refresh is
attempted and no new tokens are minted.  (In the source this outcome is
produced at credentials.go:253 — the expiry of the auth token is never
recognised as refreshable, see C1 — rather than by the verify-only guard
at credentials.go:242-249; the observable outcome the claim states is
nevertheless exactly this one.) -/
theorem verifyOnly_expiredAuth_unauthorized_no_refresh (opts : CredentialsOptions)
    (env : Env) (c : Credentials) (rt : JwtToken)
    (hvo : opts.VerifyOnlyServer = true)
    (hok : c.AuthToken.Token.claimsOk = true)
    (hcsrf : GetClaimString c.AuthToken.Token.Claims "csrf" = Except.ok c.CsrfString)
    (hexp : c.AuthToken.ParseErr = some ParseErrKind.expired)
    (hnv : c.AuthToken.Token.Valid = false)
    (hrt : c.RefreshToken = some rt)
    (hrok : rt.Token.claimsOk = true)
    (hrv : rt.Token.Valid = true) :
    validateAndUpdateCredentials opts env c =
      (some (newJwtErrorNew 401 "Auth token is not valid, and not because it has expired"), c) := by
  have hv : validateCsrfStringAgainstCredentials c = none := by
    simp [validateCsrfStringAgainstCredentials, hok, hcsrf]
  simp [validateAndUpdateCredentials, hv, hnv, errorsIsTokenExpired]

/-- A concrete expired auth token with matching csrf and readable claims,
paired below with an unexpired, csrf-matching refresh token. -/
def expiredAuthToken : JwtToken :=
  { Token :=
      { Claims := [("csrf", ClaimVal.str "csrf-0"), ("exp", ClaimVal.int 1001),
                   ("id", ClaimVal.str "tid"), ("role", ClaimVal.str "user")]
        claimsOk := true
        Valid := false }
    ParseErr := some ParseErrKind.expired
    ValidTime := 1 }

/-- A concrete unexpired refresh token bound to csrf secret "csrf-0". -/
def goodRefreshToken : JwtToken :=
  { Token :=
      { Claims := [("csrf", ClaimVal.str "csrf-0"), ("exp", ClaimVal.int 260200),
                   ("id", ClaimVal.str "tid"), ("role", ClaimVal.str "user")]
        claimsOk := true
        Valid := true }
    ParseErr := none
    ValidTime := 259200 }

/-- The credential set pairing `expiredAuthToken` with `goodRefreshToken`
under the matching presented secret. -/
def expiredAuthCred : Credentials :=
  { CsrfString := "csrf-0"
    AuthToken := expiredAuthToken
    RefreshToken := some goodRefreshToken }

/-- C9 witness: the verify-only theorem applied at a concrete expired
credential with an otherwise-valid refresh token. -/
theorem verifyOnly_expiredAuth_unauthorized_no_refresh_witness :
    validateAndUpdateCredentials
      { AuthTokenValidTime := 1, RefreshTokenValidTime := 259200
        CheckTokenId := fun _ => true, VerifyOnlyServer := true
        UpdateTokenClaims := fun m => m }
      { now := 1002, newCsrfString := some "csrf-1" } expiredAuthCred =
      (some (newJwtErrorNew 401 "Auth token is not valid, and not because it has expired"),
        expiredAuthCred) :=
  verifyOnly_expiredAuth_unauthorized_no_refresh _ _ _ goodRefreshToken
    rfl rfl rfl rfl rfl rfl rfl rfl

/-- The spec Scenario A configuration: authValidTime 1s, refreshValidTime
72h, non-verify-only, an always-valid RevocationOracle, an identity
ClaimsUpdater. -/
def scenarioAOpts : CredentialsOptions :=
  { AuthTokenValidTime := 1, RefreshTokenValidTime := 259200
    CheckTokenId := fun _ => true, VerifyOnlyServer := false
    UpdateTokenClaims := fun m => m }

/-- C1, evaluated at the failing input (spec Scenario A): presented
csrfSecret equals the auth token csrf claim, the auth token failed
validation precisely as expired (signature valid, claims readable,
retained error = expired), the service is not verify-only, and the
refresh token is present, csrf-matching, unrevoked and unexpired.  The
claim (and the repo test TestWithExpiredAuthToken) expects a refresh and
outcome Refreshed; the code instead returns the 401 of
credentials.go:253 and leaves the credential set unchanged, because the
`errors.Is(err, jwtGo.ErrTokenExpired)` test at credentials.go:235 is
applied to the csrf-check error — `nil` here — and never to the auth
token expiry error.  The second conjunct shows the refresh step itself
would have succeeded had it been reached. -/
theorem expiredAuth_matchingCsrf_refresh_never_attempted :
    validateAndUpdateCredentials scenarioAOpts
        { now := 1002, newCsrfString := some "csrf-1" } expiredAuthCred =
      (some (newJwtErrorNew 401 "Auth token is not valid, and not because it has expired"),
        expiredAuthCred)
    ∧ (updateAuthTokenFromRefreshToken scenarioAOpts
        { now := 1002, newCsrfString := some "csrf-1" } expiredAuthCred).1 = none := by
  constructor
  · rfl
  · rfl

/-- A credential set whose auth token is signature-valid and unexpired but
carries a csrf claim differing from the presented secret "good", while
the refresh token is bound to "good": the CSRF-tamper scenario of the
spec, built from wire strings. -/
def tamperedCsrfCred : Credentials :=
  buildCredentialsFromStrings scenarioAOpts "good"
    (ParseOutcome.parsed
      { Claims := [("csrf", ClaimVal.str "evil"), ("exp", ClaimVal.int 99999),
                   ("id", ClaimVal.str "tid"), ("role", ClaimVal.str "user")]
        claimsOk := true
        Valid := true } none)
    (some (ParseOutcome.parsed
      { Claims := [("csrf", ClaimVal.str "good"), ("exp", ClaimVal.int 999999),
                   ("id", ClaimVal.str "tid"), ("role", ClaimVal.str "user")]
        claimsOk := true
        Valid := true } none))

/-- C2 counterexample: with a structurally and signature-valid auth token
whose embedded csrf claim ("evil") differs from the presented csrfSecret
("good"), the claim says the call returns Unauthorized with no refresh
attempted and no mutation regardless of the refresh token.  On this input
— refresh token bound to "good", unrevoked, unexpired — the call instead
succeeds (outcome `none`, i.e. Refreshed) and mutates the credential set:
the csrfSecret is rotated to the freshly generated value.  The source
deliberately routes every 401-type csrf failure into the refresh attempt
(credentials.go:235-245). -/
theorem csrfMismatch_still_refreshes_counterexample :
    (validateAndUpdateCredentials scenarioAOpts
        { now := 5000, newCsrfString := some "fresh" } tamperedCsrfCred).1 = none
    ∧ (validateAndUpdateCredentials scenarioAOpts
        { now := 5000, newCsrfString := some "fresh" } tamperedCsrfCred).2.CsrfString = "fresh"
    ∧ tamperedCsrfCred.CsrfString = "good" := by
  refine ⟨rfl, rfl, rfl⟩

/-- C2 amended: a csrf mismatch on a readable auth token yields
Unauthorized (401) with no mutation PROVIDED the refresh side also fails
the csrf binding — the refresh token is absent, or its claims are
readable and its csrf claim is absent or differs from the presented
csrfSecret.  (Without that proviso the code proceeds to a refresh, as the
counterexample shows.)  The conclusion holds for every `VerifyOnlyServer`
value, every oracle and every updater. -/
theorem csrfMismatch_unauthorized_when_refresh_unbound (opts : CredentialsOptions)
    (env : Env) (c : Credentials)
    (hok : c.AuthToken.Token.claimsOk = true)
    (hmis : ∀ s, GetClaimString c.AuthToken.Token.Claims "csrf" = Except.ok s →
      c.CsrfString ≠ s)
    (href : ∀ rt, c.RefreshToken = some rt →
      rt.Token.claimsOk = true ∧
        ∀ s, GetClaimString rt.Token.Claims "csrf" = Except.ok s → c.CsrfString ≠ s) :
    ∃ e, validateAndUpdateCredentials opts env c = (some e, c) ∧ e.Typ = 401 := by
  have hv : validateCsrfStringAgainstCredentials c =
      some (newJwtErrorNew 401 "CSRF token does not match value in auth token") := by
    unfold validateCsrfStringAgainstCredentials
    rw [hok]
    cases hg : GetClaimString c.AuthToken.Token.Claims "csrf" with
    | error e => simp
    | ok s => simp [hmis s hg]
  by_cases hvo : opts.VerifyOnlyServer
  · refine ⟨newJwtErrorNew 401
      "Auth token is expired and server is not authorized to issue new tokens", ?_, rfl⟩
    simp [validateAndUpdateCredentials, hv, hvo, errorsIsTokenExpired, errTypeOf, newJwtErrorNew]
  · have hupd : ∃ e, updateAuthTokenFromRefreshToken opts env c = (some e, c) ∧ e.Typ = 401 := by
      cases hrt : c.RefreshToken with
      | none =>
        exact ⟨newJwtErrorNew 401 "refresh token is invalid. Cannot refresh auth token",
          by simp [updateAuthTokenFromRefreshToken, hrt], rfl⟩
      | some rt =>
        obtain ⟨hrok, hrmis⟩ := href rt hrt
        refine ⟨newJwtErrorNew 401 "CSRF token does not match value in refresh token", ?_, rfl⟩
        unfold updateAuthTokenFromRefreshToken
        rw [hrt]
        simp only [hrok]
        cases hg : GetClaimString rt.Token.Claims "csrf" with
        | error e => simp
        | ok s => simp [hrmis s hg]
    obtain ⟨e, he, ht⟩ := hupd
    refine ⟨e, ?_, ht⟩
    simp [validateAndUpdateCredentials, hv, hvo, errorsIsTokenExpired, errTypeOf,
      newJwtErrorNew, he]

/-- A credential set failing the csrf binding on both sides: presented
secret "good", auth token csrf claim "evil", refresh token csrf claim
"evil2". -/
def unboundCsrfCred : Credentials :=
  { CsrfString := "good"
    AuthToken :=
      { Token :=
          { Claims := [("csrf", ClaimVal.str "evil"), ("exp", ClaimVal.int 99999),
                       ("id", ClaimVal.str "tid")]
            claimsOk := true
            Valid := true }
        ParseErr := none
        ValidTime := 1 }
    RefreshToken := some
      { Token :=
          { Claims := [("csrf", ClaimVal.str "evil2"), ("exp", ClaimVal.int 999999),
                       ("id", ClaimVal.str "tid")]
            claimsOk := true
            Valid := true }
        ParseErr := none
        ValidTime := 259200 } }

/-- C2 witness: the amended csrf-mismatch theorem applied at a concrete
credential whose refresh token is also unbound. -/
theorem csrfMismatch_unauthorized_when_refresh_unbound_witness :
    ∃ e, validateAndUpdateCredentials scenarioAOpts
        { now := 5, newCsrfString := some "n" } unboundCsrfCred =
      (some e, unboundCsrfCred) ∧ e.Typ = 401 :=
  csrfMismatch_unauthorized_when_refresh_unbound scenarioAOpts _ _ rfl
    (by
      intro s hs
      have h2 : (Except.ok "evil" : Except Unit String) = Except.ok s := hs
      injection h2 with h3
      subst h3
      decide)
    (by
      intro rt hrt
      injection hrt with h4
      subst h4
      refine ⟨rfl, ?_⟩
      intro s hs
      have h2 : (Except.ok "evil2" : Except Unit String) = Except.ok s := hs
      injection h2 with h3
      subst h3
      decide)

/-- C3, evaluated at the failing input: issuing at now = 0 with
authValidTime = 1s and refreshValidTime = 72h (= 259200 s) stamps BOTH
tokens with exp = 259200.  In Go, `authClaims := *claims` and
`refreshClaimsClaims := *claims` (credentials.go:58,64) copy only the map
header, so the auth token and the refresh token reference one shared
claims map and the later write `refreshClaimsClaims["exp"] = now +
refreshValidTime` overwrites the auth expiry before any token is signed.
The claim (and the repo tests TestWithExpiredTokens /
TestWithRevokedRefreshToken, which need the auth token to expire after
authValidTime) expects auth exp = now + authValidTime = 1 < 259200. -/
theorem issuance_auth_exp_overwritten_by_refresh_exp :
    ∃ c', buildCredentialsFromClaims scenarioAOpts
        [("id", ClaimVal.str "tid"), ("role", ClaimVal.str "user")] (some "csrf-0") 0 =
        Except.ok c'
      ∧ lookupClaim c'.AuthToken.Token.Claims "exp" = some (ClaimVal.int 259200)
      ∧ (∃ rt, c'.RefreshToken = some rt ∧
          lookupClaim rt.Token.Claims "exp" = some (ClaimVal.int 259200))
      ∧ (0 : Int) + scenarioAOpts.AuthTokenValidTime = 1 := by
  refine ⟨_, rfl, rfl, ⟨_, rfl, rfl⟩, rfl⟩

/-- C8: for every issuance from base claims that gets past csrf
generation, the csrf claim stamped in the auth token and the csrf claim
stamped in the refresh token both equal the returned csrfSecret. -/
theorem issuance_csrf_binding (opts : CredentialsOptions) (claims : MapClaims)
    (cs : String) (now : Int) :
    ∃ c', buildCredentialsFromClaims opts claims (some cs) now = Except.ok c'
      ∧ c'.CsrfString = cs
      ∧ GetClaimString c'.AuthToken.Token.Claims "csrf" = Except.ok c'.CsrfString
      ∧ ∃ rt, c'.RefreshToken = some rt ∧
          GetClaimString rt.Token.Claims "csrf" = Except.ok c'.CsrfString := by
  refine ⟨_, rfl, rfl, ?_, _, rfl, ?_⟩ <;>
    simp [buildCredentialsFromClaims, newTokenWithClaims, GetClaimString,
      lookupClaim_stamped_csrf]

/-- C10: at issuance from base claims, and after every successful
refresh, the auth token and the refresh token are built over the same
underlying (aliased) claims map, so their claim-sets are equal
key-for-key at signing time — csrf, exp, id and every custom claim. -/
theorem tokens_share_one_claim_map :
    (∀ (opts : CredentialsOptions) (claims : MapClaims) (cs : String) (now : Int),
      ∃ c', buildCredentialsFromClaims opts claims (some cs) now = Except.ok c'
        ∧ ∃ rt, c'.RefreshToken = some rt ∧ c'.AuthToken.Token.Claims = rt.Token.Claims)
    ∧ (∀ (opts : CredentialsOptions) (env : Env) (c c' : Credentials),
      updateAuthTokenFromRefreshToken opts env c = (none, c') →
        ∃ rt, c'.RefreshToken = some rt ∧ c'.AuthToken.Token.Claims = rt.Token.Claims) := by
  constructor
  · intro opts claims cs now
    exact ⟨_, rfl, _, rfl, rfl⟩
  · intro opts env c c' h
    unfold updateAuthTokenFromRefreshToken at h
    repeat' split at h
    all_goals (
      injection h with h1 h2
      first
        | exact Option.noConfusion h1
        | (subst h2; exact ⟨_, rfl, rfl⟩))

/-- C10 witness: a concrete successful refresh whose resulting auth and
refresh tokens carry the same claim map. -/
theorem tokens_share_one_claim_map_witness :
    ∃ rt, (updateAuthTokenFromRefreshToken scenarioAOpts
        { now := 1002, newCsrfString := some "csrf-1" } expiredAuthCred).2.RefreshToken =
        some rt
      ∧ (updateAuthTokenFromRefreshToken scenarioAOpts
          { now := 1002, newCsrfString := some "csrf-1" } expiredAuthCred).2.AuthToken.Token.Claims =
        rt.Token.Claims :=
  tokens_share_one_claim_map.2 scenarioAOpts
    { now := 1002, newCsrfString := some "csrf-1" } expiredAuthCred _ rfl

/-- Error frame of the refresh step: whenever
`updateAuthTokenFromRefreshToken` returns an error, the credential set is
returned exactly as it was — the new csrf is generated, and every field
assigned, only after all checks have passed. -/
theorem updateAuthToken_error_frame (opts : CredentialsOptions) (env : Env)
    (c : Credentials) :
    ((updateAuthTokenFromRefreshToken opts env c).1).isSome = true →
    (updateAuthTokenFromRefreshToken opts env c).2 = c := by
  unfold updateAuthTokenFromRefreshToken
  repeat' split
  all_goals simp

/-- C4: every call of `validateAndRefresh` that yields an error outcome
(Unauthorized 401 or InternalError 500 — any `some` first component)
leaves the credential set — csrfSecret, auth token and refresh token —
exactly as it was: refresh is all-or-nothing. -/
theorem validateAndUpdate_error_frame (opts : CredentialsOptions) (env : Env)
    (c : Credentials) :
    ((validateAndUpdateCredentials opts env c).1).isSome = true →
    (validateAndUpdateCredentials opts env c).2 = c := by
  unfold validateAndUpdateCredentials
  by_cases h1 : validateCsrfStringAgainstCredentials c = none ∧ c.AuthToken.Token.Valid = true
  · simp [h1]
  · rw [if_neg h1]
    by_cases h2 : errorsIsTokenExpired (validateCsrfStringAgainstCredentials c) = true ∨
        (¬ validateCsrfStringAgainstCredentials c = none ∧
          errTypeOf (validateCsrfStringAgainstCredentials c) = 401)
    · rw [if_pos h2]
      by_cases h3 : opts.VerifyOnlyServer = false
      · rw [if_pos h3]
        exact updateAuthToken_error_frame opts env c
      · rw [if_neg h3]
        intro
        rfl
    · rw [if_neg h2]
      intro
      rfl

/-- C4 witness: the error frame applied at a concrete erring call (the
csrf-unbound credential), together with the fact that the call does
err. -/
theorem validateAndUpdate_error_frame_witness :
    (validateAndUpdateCredentials scenarioAOpts
        { now := 5, newCsrfString := some "n" } unboundCsrfCred).2 = unboundCsrfCred
    ∧ ((validateAndUpdateCredentials scenarioAOpts
        { now := 5, newCsrfString := some "n" } unboundCsrfCred).1).isSome = true :=
  ⟨validateAndUpdate_error_frame scenarioAOpts
      { now := 5, newCsrfString := some "n" } unboundCsrfCred rfl, rfl⟩

/-- C6: during a refresh attempt on a present refresh token with readable,
csrf-matching claims — (a) if the id claim is readable and the
RevocationOracle `CheckTokenId` answers false, the outcome is the
Unauthorized 401 "revoked" error with no new tokens (the credential set
is returned unchanged), and this holds for EVERY `rt.Token.Valid`, i.e.
also for an already-expired refresh token, showing the revocation check
is performed before the expiry check (credentials.go:152 before :155);
(b) if the id claim is missing, the outcome is the InternalError 500,
not a 401. -/
theorem refresh_revocation_before_expiry_and_missing_id (opts : CredentialsOptions)
    (env : Env) (c : Credentials) (rt : JwtToken)
    (hrt : c.RefreshToken = some rt)
    (hok : rt.Token.claimsOk = true)
    (hcsrf : GetClaimString rt.Token.Claims "csrf" = Except.ok c.CsrfString) :
    (∀ i, GetClaimString rt.Token.Claims "id" = Except.ok i →
      opts.CheckTokenId i = false →
      updateAuthTokenFromRefreshToken opts env c =
        (some (newJwtErrorNew 401
          "refresh token has been revoked. Cannot update auth token"), c))
    ∧ (GetClaimString rt.Token.Claims "id" = Except.error () →
      updateAuthTokenFromRefreshToken opts env c =
        (some (newJwtErrorNew 500 "cannot read claim string"), c)) := by
  constructor
  · intro i hid hrev
    unfold updateAuthTokenFromRefreshToken
    rw [hrt]
    simp [hok, hcsrf, hid, hrev]
  · intro hid
    unfold updateAuthTokenFromRefreshToken
    rw [hrt]
    simp [hok, hcsrf, hid]

/-- Options with a RevocationOracle that revokes every id. -/
def revokedOpts : CredentialsOptions :=
  { AuthTokenValidTime := 1, RefreshTokenValidTime := 259200
    CheckTokenId := fun _ => false, VerifyOnlyServer := false
    UpdateTokenClaims := fun m => m }

/-- A credential set whose refresh token is csrf-matching but EXPIRED
(`Valid = false`); paired with `revokedOpts` its id is also revoked. -/
def expiredRefreshCred : Credentials :=
  { CsrfString := "csrf-0"
    AuthToken := expiredAuthToken
    RefreshToken := some
      { Token :=
          { Claims := [("csrf", ClaimVal.str "csrf-0"), ("exp", ClaimVal.int 500),
                       ("id", ClaimVal.str "tid")]
            claimsOk := true
            Valid := false }
        ParseErr := some ParseErrKind.expired
        ValidTime := 259200 } }

/-- C6 witness: on a refresh token that is BOTH revoked and expired, the
outcome is the "revoked" 401 — the revocation verdict, not the expiry
one — with the credential set unchanged. -/
theorem refresh_revocation_before_expiry_and_missing_id_witness :
    updateAuthTokenFromRefreshToken revokedOpts
        { now := 1002, newCsrfString := some "n" } expiredRefreshCred =
      (some (newJwtErrorNew 401
        "refresh token has been revoked. Cannot update auth token"), expiredRefreshCred) :=
  (refresh_revocation_before_expiry_and_missing_id revokedOpts
      { now := 1002, newCsrfString := some "n" } expiredRefreshCred _ rfl rfl rfl).1
    "tid" rfl rfl

/-- C7 counterexample: a wire string that parses structurally but fails
signature verification — the library then returns the token WITH its
decoded claims plus an error — yields a SignedToken whose claim-set is
NOT empty, refuting "on any parse failure the returned SignedToken wraps
an empty claim-set"; the non-null retained error part does hold.  (That
expired tokens keep readable claims is also what the refresh flow itself
relies on: it reads csrf and id from tokens that failed validation.) -/
theorem parseFailure_claims_not_empty_counterexample :
    (buildTokenWithClaimsFromString
        (ParseOutcome.parsed
          { Claims := [("csrf", ClaimVal.str "x")], claimsOk := true, Valid := false }
          (some ParseErrKind.badSignature)) 900).ParseErr = some ParseErrKind.badSignature
    ∧ (buildTokenWithClaimsFromString
        (ParseOutcome.parsed
          { Claims := [("csrf", ClaimVal.str "x")], claimsOk := true, Valid := false }
          (some ParseErrKind.badSignature)) 900).Token.Claims ≠ [] :=
  ⟨rfl, by decide⟩

/-- C7 amended: `buildTokenWithClaimsFromString` always returns a
SignedToken with a non-nil token and retains the library parse error
unchanged; the claim-set is substituted by an empty one exactly when the
library produced no token at all (structurally invalid input), while a
token produced despite the failure (bad signature, wrong method, expired)
is kept with its decoded claims alongside the non-null error. -/
theorem buildToken_total_retains_error (r : ParseOutcome) (vt : Int) :
    (buildTokenWithClaimsFromString r vt).ParseErr = parseErrOf r
    ∧ (∀ e, r = ParseOutcome.failedNil e →
        (buildTokenWithClaimsFromString r vt).Token.Claims = [])
    ∧ (∀ t e, r = ParseOutcome.parsed t e →
        (buildTokenWithClaimsFromString r vt).Token = t) := by
  cases r <;> simp [buildTokenWithClaimsFromString, parseErrOf]

/-- C7 witness: the amended theorem applied at a concrete nil-token
outcome: empty claim-set and retained malformed error. -/
theorem buildToken_total_retains_error_witness :
    (buildTokenWithClaimsFromString
        (ParseOutcome.failedNil ParseErrKind.malformed) 900).ParseErr =
      some ParseErrKind.malformed
    ∧ (buildTokenWithClaimsFromString
        (ParseOutcome.failedNil ParseErrKind.malformed) 900).Token.Claims = [] :=
  ⟨(buildToken_total_retains_error (ParseOutcome.failedNil ParseErrKind.malformed) 900).1,
    (buildToken_total_retains_error (ParseOutcome.failedNil ParseErrKind.malformed) 900).2.1
      ParseErrKind.malformed rfl⟩
